import Mathlib

/-!
Shallow embedding of the observation-generation pipeline in src/main.py
(function create_observations and its helpers).

Rows come from a TSV read with all columns typed as str: a missing cell is
pandas NaN, a present cell is a non-empty string.  We model every cell as
an Option String (none = NaN).  The remote terminology lookup
(get_concept_display) is a network call; each pass performs its own call
per row, so each pass receives its own oracle outcome: Except.error models
a raised exception, Except.ok models a returned display (possibly Python
None, modelled as Option.none).  The uuid4 identifiers minted per record
are likewise inputs.  Python floats are modelled exactly: a parsed decimal
literal is kept as a signed mantissa and a power-of-ten exponent (the
denoted value is num * 10 ^ exp), so no rounding beyond what the code
itself performs is introduced.  The parser below covers the finite decimal
grammar of the float constructor (surrounding whitespace, sign, digits,
decimal point, exponent); the inf/nan spellings and digit-group
underscores are outside the rows this development considers.
-/

/-- Exact value of a parsed Python float literal: num * 10 ^ exp. -/
structure DecNum where
  num : Int
  exp : Int
  deriving Repr, DecidableEq

/-- The denoted rational value of a DecNum. -/
def DecNum.toRat (a : DecNum) : Rat :=
  if 0 ≤ a.exp then (a.num : Rat) * (10 : Rat) ^ a.exp.toNat
  else (a.num : Rat) / (10 : Rat) ^ (-a.exp).toNat

/-- The comparison value_num > 9 performed by the code on the parsed float. -/
def DecNum.gtNine (a : DecNum) : Bool :=
  if 0 ≤ a.exp then decide (9 < a.num * (10 : Int) ^ a.exp.toNat)
  else decide (9 * (10 : Int) ^ (-a.exp).toNat < a.num)

/-- Model of the Python one-argument round on the denoted value:
round half to even, yielding an Int. -/
def DecNum.pyRound (a : DecNum) : Int :=
  if 0 ≤ a.exp then a.num * (10 : Int) ^ a.exp.toNat
  else
    let d : Int := (10 : Int) ^ (-a.exp).toNat
    let f : Int := Int.fdiv a.num d
    let r : Int := a.num - f * d
    if 2 * r < d then f
    else if d < 2 * r then f + 1
    else if f % 2 = 0 then f else f + 1

/-- Python str.strip and the whitespace skipping of float: ASCII whitespace. -/
def isSpaceChar (c : Char) : Bool :=
  c == ' ' || c == '\t' || c == '\n' || c == '\r' || c == '\x0b' || c == '\x0c'

/-- Drop leading and trailing whitespace characters. -/
def stripChars (cs : List Char) : List Char :=
  ((cs.dropWhile isSpaceChar).reverse.dropWhile isSpaceChar).reverse

/-- Model of Python str.strip() with no argument. -/
def pyStrip (s : String) : String :=
  ⟨stripChars s.data⟩

/-- Accumulate a decimal digit list into a Nat. -/
def digitsToNatAux (acc : Nat) : List Char → Nat
  | [] => acc
  | c :: cs => digitsToNatAux (10 * acc + (c.toNat - 48)) cs

/-- Value of a digit list. -/
def digitsVal (cs : List Char) : Nat :=
  digitsToNatAux 0 cs

/-- Exponent part of a float literal: the remainder after the mantissa.
Empty input means no exponent (0); otherwise an e or E with optional sign
and at least one digit, consuming the whole remainder. -/
def parseExpPart : List Char → Option Int
  | [] => some 0
  | c :: rest =>
    if c == 'e' || c == 'E' then
      let sgn : Bool × List Char :=
        match rest with
        | '+' :: r => (false, r)
        | '-' :: r => (true, r)
        | _ => (false, rest)
      let ds := sgn.2.takeWhile Char.isDigit
      let rem := sgn.2.dropWhile Char.isDigit
      if ds.isEmpty || !rem.isEmpty then none
      else some (if sgn.1 then -(digitsVal ds : Int) else (digitsVal ds : Int))
    else none

/-- Model of the Python float constructor on a string, over the finite
decimal grammar: optional surrounding whitespace, optional sign, digits
with an optional decimal point (at least one digit overall), optional
exponent.  Returns the exact decimal value. -/
def parsePyFloat (s : String) : Option DecNum :=
  let cs := stripChars s.data
  let sgn : Bool × List Char :=
    match cs with
    | '+' :: rest => (false, rest)
    | '-' :: rest => (true, rest)
    | _ => (false, cs)
  let intPart := sgn.2.takeWhile Char.isDigit
  let rest1 := sgn.2.dropWhile Char.isDigit
  let fracRes : List Char × List Char :=
    match rest1 with
    | '.' :: r => (r.takeWhile Char.isDigit, r.dropWhile Char.isDigit)
    | _ => ([], rest1)
  if intPart.isEmpty && fracRes.1.isEmpty then none
  else
    match parseExpPart fracRes.2 with
    | none => none
    | some e =>
      let mant : Nat := digitsToNatAux (digitsToNatAux 0 intPart) fracRes.1
      some { num := if sgn.1 then -(mant : Int) else (mant : Int)
             exp := e - (fracRes.1.length : Int) }

/-! ### Date handling

datetime.strptime(s, percent-m slash percent-d slash percent-Y) matches the
month as one or two digits valued 1..12, the day as one or two digits
valued 1..31, the year as exactly four digits, separated by literal
slashes, consuming the whole string; the datetime constructor then
requires year at least 1 and the day to fit the month (Gregorian leap
rule).  date.isoformat() prints YYYY-MM-DD zero-padded; strftime with
percent-d slash percent-m slash percent-Y prints zero-padded day and
month and the year unpadded (glibc).
-/

/-- Split a character list on the slash character. -/
def splitSlashAux (cur : List Char) : List Char → List (List Char)
  | [] => [cur.reverse]
  | c :: rest =>
    if c == '/' then cur.reverse :: splitSlashAux [] rest
    else splitSlashAux (c :: cur) rest

/-- All characters are decimal digits. -/
def allDigits (cs : List Char) : Bool :=
  cs.all Char.isDigit

/-- The month field of strptime: one digit 1-9 or two digits 01-12. -/
def monthOk (cs : List Char) : Bool :=
  allDigits cs &&
    (decide (cs.length = 1 ∧ 1 ≤ digitsVal cs ∧ digitsVal cs ≤ 9) ||
     decide (cs.length = 2 ∧ 1 ≤ digitsVal cs ∧ digitsVal cs ≤ 12))

/-- The day field of strptime: one digit 1-9 or two digits 01-31. -/
def dayOk (cs : List Char) : Bool :=
  allDigits cs &&
    (decide (cs.length = 1 ∧ 1 ≤ digitsVal cs ∧ digitsVal cs ≤ 9) ||
     decide (cs.length = 2 ∧ 1 ≤ digitsVal cs ∧ digitsVal cs ≤ 31))

/-- The year field of strptime: exactly four digits. -/
def yearOk (cs : List Char) : Bool :=
  allDigits cs && decide (cs.length = 4)

/-- Gregorian leap year. -/
def isLeap (y : Nat) : Bool :=
  y % 4 == 0 && (y % 100 != 0 || y % 400 == 0)

/-- Days in a month. -/
def daysInMonth (y m : Nat) : Nat :=
  if m = 2 then (if isLeap y then 29 else 28)
  else if m = 4 ∨ m = 6 ∨ m = 9 ∨ m = 11 then 30
  else 31

/-- Model of datetime.strptime with the MM/DD/YYYY format: returns
(month, day, year) on success. -/
def parseMMDDYYYY (s : String) : Option (Nat × Nat × Nat) :=
  match splitSlashAux [] s.data with
  | [ms, ds, ys] =>
    if monthOk ms && dayOk ds && yearOk ys then
      let m := digitsVal ms
      let d := digitsVal ds
      let y := digitsVal ys
      if 1 ≤ y ∧ d ≤ daysInMonth y m then some (m, d, y) else none
    else none
  | _ => none

/-- Zero-pad a Nat to two digits. -/
def pad2 (n : Nat) : String :=
  if n < 10 then "0" ++ toString n else toString n

/-- Zero-pad a Nat to four digits. -/
def pad4 (n : Nat) : String :=
  if n < 10 then "000" ++ toString n
  else if n < 100 then "00" ++ toString n
  else if n < 1000 then "0" ++ toString n
  else toString n

/-- date.isoformat(): YYYY-MM-DD. -/
def isoDate (y m d : Nat) : String :=
  pad4 y ++ "-" ++ pad2 m ++ "-" ++ pad2 d

/-- strftime day/month/year as the narrative uses it: DD/MM/YYYY. -/
def fmtDDMMYYYY (d m y : Nat) : String :=
  pad2 d ++ "/" ++ pad2 m ++ "/" ++ toString y

/-! ### Data model -/

/-- One TSV row, as read with dtype str for every column: a missing cell
is none, a present cell is its string. -/
structure Row where
  code : String
  sys : String
  text_description : Option String
  value : Option String
  units : Option String
  ucum : Option String
  lowRefRange : Option String
  highRefRange : Option String
  rrDisplay : Option String
  dateobserved : Option String
  deriving Repr, DecidableEq

/-- config.json as the code reads it: subject and performer entries,
each possibly missing. -/
structure Config where
  subject : Option String
  performer : Option String
  deriving Repr, DecidableEq

/-- The truthiness test the code applies to a cell:
pd.notna(x) and x, i.e. present and non-empty. -/
def present : Option String → Bool
  | some s => decide (s ≠ "")
  | none => false

/-- A numeric JSON value as the code stores it: a Python int after the
greater-than-nine rounding, otherwise the parsed float kept exactly. -/
inductive JsonNum where
  | jint (n : Int)
  | jfloat (q : DecNum)
  deriving Repr, DecidableEq

/-- A quantity dictionary: value plus the optional system/code/unit
metadata keys. -/
structure Quantity where
  value : JsonNum
  qsystem : Option String
  qcode : Option String
  qunit : Option String
  deriving Repr, DecidableEq

/-- The value representation chosen for a record: valueQuantity,
valueCodeableConcept (with its single coding), or valueString. -/
inductive ObsValue where
  | quantity (q : Quantity)
  | codeable (csystem ccode cdisplay : String)
  | str (s : String)
  deriving Repr, DecidableEq

/-- One entry of the performer list: either a direct reference or a
data-absent-reason extension (url, valueCode) with no reference. -/
structure PerformerEntry where
  reference : Option String
  darExtension : List (String × String)
  deriving Repr, DecidableEq

/-- The single referenceRange element the code builds. -/
structure RefRange where
  low : Option Quantity
  high : Option Quantity
  text : Option String
  deriving Repr, DecidableEq

/-- The per-row output dictionary.  resourceType, status and the fixed
laboratory category coding are constants in the code; status is kept,
the category coding is the same for every record and is omitted here. -/
structure ObservationRecord where
  id : String
  status : String
  codeSystem : String
  codeCode : String
  codeDisplay : Option String
  codeText : String
  subject : Option String
  performer : Option (List PerformerEntry)
  effectiveDateTime : Option String
  value : Option ObsValue
  referenceRange : Option RefRange
  deriving Repr, DecidableEq

/-- The log lines the pipeline can emit for a row. -/
inductive LogMsg where
  | warnInvalidDate (idx : Nat) (raw : String)
  | warnInvalidValue (idx : Nat) (raw : String)
  | warnInvalidLow (idx : Nat) (raw : String)
  | warnInvalidHigh (idx : Nat) (raw : String)
  | errorRow (idx : Nat) (msg : String)
  | errorRowBundle (idx : Nat) (msg : String)
  | warnHistoryRow (idx : Nat) (msg : String)
  deriving Repr, DecidableEq

/-! ### Record construction (the body of the per-row loop)

The per-file loop and the bundle loop of create_observations build the
observation dictionary with two textually identical blocks; both are
modelled by the single function buildObservation below.
-/

/-- unit_str: the stripped units cell when present, else empty. -/
def unitsStr (r : Row) : String :=
  match r.units with
  | some u => pyStrip u
  | none => ""

/-- ucum_code: the stripped ucum cell when present and non-blank,
else the stripped units cell when present, else empty. -/
def ucumCode (r : Row) : String :=
  match r.ucum with
  | some u => if pyStrip u = "" then unitsStr r else pyStrip u
  | none => unitsStr r

/-- The effectiveDateTime field and any warning: present cell parsed
strictly as MM/DD/YYYY and stored as the ISO date; a failing parse logs
a warning and leaves the field absent. -/
def mkEffective (idx : Nat) : Option String → Option String × List LogMsg
  | none => (none, [])
  | some raw =>
    if raw = "" then (none, [])
    else
      match parseMMDDYYYY raw with
      | some (m, d, y) => (some (isoDate y m d), [])
      | none => (none, [LogMsg.warnInvalidDate idx raw])

/-- The fixed interpretation code system for antibiotic sensitivity. -/
def interpretationSystem : String :=
  "http://terminology.hl7.org/CodeSystem/v3-ObservationInterpretation"

/-- The value field and any warning: float parse first (with the
greater-than-nine integer rounding and the unit metadata), then the
stripped S/I/R vocabulary, then plain text, and a warning when the
stripped value is empty. -/
def mkObsValue (idx : Nat) (vopt : Option String) (uc us : String) :
    Option ObsValue × List LogMsg :=
  match vopt with
  | none => (none, [])
  | some raw =>
    if raw = "" then (none, [])
    else
      match parsePyFloat raw with
      | some q =>
        (some (ObsValue.quantity
          { value := if q.gtNine then JsonNum.jint q.pyRound else JsonNum.jfloat q
            qsystem := if uc ≠ "" then some "http://unitsofmeasure.org" else none
            qcode := if uc ≠ "" then some uc else none
            qunit := if us ≠ "" then some us else none }), [])
      | none =>
        let val := pyStrip raw
        if val = "S" then
          (some (ObsValue.codeable interpretationSystem "S" "Susceptible"), [])
        else if val = "I" then
          (some (ObsValue.codeable interpretationSystem "I" "Intermediate"), [])
        else if val = "R" then
          (some (ObsValue.codeable interpretationSystem "R" "Resistant"), [])
        else if val ≠ "" then
          (some (ObsValue.str val), [])
        else
          (none, [LogMsg.warnInvalidValue idx raw])

/-- The referenceRange field and any warnings: built whenever at least
one bound cell is present and non-empty; each bound is float-parsed
independently (no rounding), a failing bound is logged and omitted; the
RR Display cell is attached unstripped as text when present. -/
def mkRefRange (idx : Nat) (lowOpt highOpt rrOpt : Option String) (uc us : String) :
    Option RefRange × List LogMsg :=
  if present lowOpt || present highOpt then
    let lowRes : Option Quantity × List LogMsg :=
      match lowOpt with
      | some lraw =>
        if lraw = "" then (none, [])
        else
          match parsePyFloat lraw with
          | some v =>
            (some { value := JsonNum.jfloat v
                    qsystem := if uc ≠ "" then some "http://unitsofmeasure.org" else none
                    qcode := if uc ≠ "" then some uc else none
                    qunit := if us ≠ "" then some us else none }, [])
          | none => (none, [LogMsg.warnInvalidLow idx lraw])
      | none => (none, [])
    let highRes : Option Quantity × List LogMsg :=
      match highOpt with
      | some hraw =>
        if hraw = "" then (none, [])
        else
          match parsePyFloat hraw with
          | some v =>
            (some { value := JsonNum.jfloat v
                    qsystem := if uc ≠ "" then some "http://unitsofmeasure.org" else none
                    qcode := if uc ≠ "" then some uc else none
                    qunit := if us ≠ "" then some us else none }, [])
          | none => (none, [LogMsg.warnInvalidHigh idx hraw])
      | none => (none, [])
    let text : Option String :=
      match rrOpt with
      | some t => if t = "" then none else some t
      | none => none
    (some { low := lowRes.1, high := highRes.1, text := text },
     lowRes.2 ++ highRes.2)
  else (none, [])

/-- The performer field: the sentinel unknown gives one entry holding a
data-absent-reason extension and no reference; any other truthy value
gives one entry holding it as a direct reference; otherwise no field. -/
def mkPerformer (performerVal : Option String) : Option (List PerformerEntry) :=
  if performerVal = some "unknown" then
    some [{ reference := none
            darExtension :=
              [("http://hl7.org/fhir/StructureDefinition/data-absent-reason",
                "unknown")] }]
  else
    match performerVal with
    | some s => if s ≠ "" then some [{ reference := some s, darExtension := [] }] else none
    | none => none

/-- One observation dictionary plus the warnings logged while building
it, given the display returned by the terminology lookup and the freshly
minted uuid. -/
def buildObservation (cfg : Config) (idx : Nat) (r : Row)
    (display : Option String) (oid : String) :
    ObservationRecord × List LogMsg :=
  let uc := ucumCode r
  let us := unitsStr r
  let eff := mkEffective idx r.dateobserved
  let vres := mkObsValue idx r.value uc us
  let rres := mkRefRange idx r.lowRefRange r.highRefRange r.rrDisplay uc us
  ({ id := oid
     status := "final"
     codeSystem := r.sys
     codeCode := r.code
     codeDisplay := display
     codeText := match r.text_description with | some t => pyStrip t | none => ""
     subject := cfg.subject
     performer := mkPerformer cfg.performer
     effectiveDateTime := eff.1
     value := vres.1
     referenceRange := rres.1 },
   eff.2 ++ vres.2 ++ rres.2)

/-! ### The three per-row loops

create_observations iterates the rows three times: the per-file write
loop, the bundle-entry loop, and the narrative (result-history) loop.
Each loop performs its own terminology lookup for every row and the
first two mint their own uuid per record, so every row carries one
lookup-oracle outcome per loop and one identifier per minting loop.
Each loop body is wrapped in a try/except that logs the failed row by
its index and continues; the lookup is the fallible operation.
-/

/-- One input row together with the oracle outcomes of its three
terminology lookups and the identifiers minted for it. -/
structure RowCtx where
  row : Row
  lookupF : Except String (Option String)
  lookupB : Except String (Option String)
  lookupN : Except String (Option String)
  oidF : String
  oidB : String
  deriving Repr

/-- Whether a lookup outcome is a normal return. -/
def exOk : Except String (Option String) → Bool
  | Except.ok _ => true
  | Except.error _ => false

/-- Zero-pad a Nat to three digits, as the 03d format field does. -/
def pad3 (n : Nat) : String :=
  if n < 10 then "00" ++ toString n
  else if n < 100 then "0" ++ toString n
  else toString n

/-- safe_code: slashes and backslashes replaced by dashes. -/
def safeCode (s : String) : String :=
  ⟨s.data.map (fun c => if c == '/' || c == '\\' then '-' else c)⟩

/-- The per-row output filename. -/
def obsFilename (code : String) (idx : Nat) : String :=
  "observation_" ++ safeCode code ++ "_" ++ pad3 idx ++ ".json"

/-- The per-file loop: one (filename, record) per surviving row, plus
the log stream; a failed lookup logs an error with the row index and
skips only that row. -/
def filePassAux (cfg : Config) : Nat → List RowCtx →
    List (String × ObservationRecord) × List LogMsg
  | _, [] => ([], [])
  | idx, rc :: rest =>
    let tail := filePassAux cfg (idx + 1) rest
    match rc.lookupF with
    | Except.error e => (tail.1, LogMsg.errorRow idx e :: tail.2)
    | Except.ok disp =>
      let built := buildObservation cfg idx rc.row disp rc.oidF
      ((obsFilename rc.row.code idx, built.1) :: tail.1, built.2 ++ tail.2)

/-- The per-file loop started at row index 0. -/
def filePass (cfg : Config) (rows : List RowCtx) :
    List (String × ObservationRecord) × List LogMsg :=
  filePassAux cfg 0 rows

/-- One entry of the bundle: fullUrl plus the embedded record. -/
structure BundleEntry where
  fullUrl : String
  resource : ObservationRecord
  deriving Repr, DecidableEq

/-- The bundle-entry loop: per surviving row one bundle entry (fullUrl
urn:uuid: plus the freshly minted id, resource the built record) and one
result-history reference to the same urn; a failed lookup logs an error
with the row index and skips only that row. -/
def bundlePassAux (cfg : Config) : Nat → List RowCtx →
    List BundleEntry × List String × List LogMsg
  | _, [] => ([], [], [])
  | idx, rc :: rest =>
    let tail := bundlePassAux cfg (idx + 1) rest
    match rc.lookupB with
    | Except.error e =>
      (tail.1, tail.2.1, LogMsg.errorRowBundle idx e :: tail.2.2)
    | Except.ok disp =>
      let built := buildObservation cfg idx rc.row disp rc.oidB
      ({ fullUrl := "urn:uuid:" ++ rc.oidB, resource := built.1 } :: tail.1,
       ("urn:uuid:" ++ rc.oidB) :: tail.2.1,
       built.2 ++ tail.2.2)

/-- The bundle-entry loop started at row index 0. -/
def bundlePass (cfg : Config) (rows : List RowCtx) :
    List BundleEntry × List String × List LogMsg :=
  bundlePassAux cfg 0 rows

/-- One row of the generated HTML history table: the three cell
strings. -/
structure HtmlRow where
  testName : String
  valueCell : String
  dateCell : String
  deriving Repr, DecidableEq

/-- The test-name fallback: the raw text_description cell; a missing
cell is a pandas NaN, which the f-string renders as nan. -/
def descCell (r : Row) : String :=
  match r.text_description with
  | some t => t
  | none => "nan"

/-- One narrative table row: display when truthy else the raw
description; the raw value followed by the raw units (else ucum) cell
when one is truthy; the date reformatted to DD/MM/YYYY when it parses as
MM/DD/YYYY, else the raw date string, empty when the cell is missing. -/
def narrativeRow (r : Row) (display : Option String) : HtmlRow :=
  { testName :=
      match display with
      | some d => if d = "" then descCell r else d
      | none => descCell r
    valueCell :=
      match r.value with
      | some v =>
        if v = "" then ""
        else if present r.units then v ++ " " ++ r.units.getD ""
        else if present r.ucum then v ++ " " ++ r.ucum.getD ""
        else v
      | none => ""
    dateCell :=
      match r.dateobserved with
      | some dr =>
        if dr = "" then ""
        else
          match parseMMDDYYYY dr with
          | some (m, d, y) => fmtDDMMYYYY d m y
          | none => dr
      | none => "" }

/-- The narrative loop: one HTML row per surviving row; a failed lookup
logs a warning with the row index and skips only that row. -/
def narrativePassAux : Nat → List RowCtx → List HtmlRow × List LogMsg
  | _, [] => ([], [])
  | idx, rc :: rest =>
    let tail := narrativePassAux (idx + 1) rest
    match rc.lookupN with
    | Except.error e => (tail.1, LogMsg.warnHistoryRow idx e :: tail.2)
    | Except.ok disp => (narrativeRow rc.row disp :: tail.1, tail.2)

/-- The narrative loop started at row index 0. -/
def narrativePass (rows : List RowCtx) : List HtmlRow × List LogMsg :=
  narrativePassAux 0 rows

/-- The result-history section: fixed title and LOINC coding, the
generated table rows, and the references collected by the bundle loop. -/
structure ResultHistorySection where
  title : String
  codeSystem : String
  codeCode : String
  htmlRows : List HtmlRow
  entry : List String
  deriving Repr, DecidableEq

/-- Assemble the result-history section. -/
def mkSection (hrows : List HtmlRow) (refs : List String) : ResultHistorySection :=
  { title := "Result History"
    codeSystem := "http://loinc.org"
    codeCode := "30954-2"
    htmlRows := hrows
    entry := refs }

/-- The aggregate bundle: fresh id, collection type, the ordered
entries, and the optional section list (the source stores the section
under a key of the bundle dictionary; it is a single section when
present). -/
structure Bundle where
  id : String
  btype : String
  entries : List BundleEntry
  sect : Option ResultHistorySection
  deriving Repr, DecidableEq

/-- Assemble the bundle from the bundle loop and the narrative loop:
entries in row order; the section is attached exactly when the
result-history reference list is non-empty. -/
def assembleBundle (cfg : Config) (rows : List RowCtx) (bid : String) : Bundle :=
  let bp := bundlePass cfg rows
  let hrows := (narrativePass rows).1
  { id := bid
    btype := "collection"
    entries := bp.1
    sect := if bp.2.1.isEmpty then none else some (mkSection hrows bp.2.1) }

/-! ### Derived observables and the spec-worded unit rule -/

/-- The numeric value stored inside valueQuantity, when the record has
one. -/
def obsQuantityValue (o : ObservationRecord) : Option JsonNum :=
  match o.value with
  | some (ObsValue.quantity q) => some q.value
  | _ => none

/-- The unit metadata triple (system, code, unit) written by each of the
three quantity-building blocks, as a function of the resolved ucum_code
and unit_str. -/
def unitMeta (uc us : String) : Option String × Option String × Option String :=
  (if uc ≠ "" then some "http://unitsofmeasure.org" else none,
   if uc ≠ "" then some uc else none,
   if us ≠ "" then some us else none)

/-- The unit-resolution rule as the spec words it, over the raw ucum and
units cells (for the refinement comparison): prefer ucum as the coded
unit, with the standard units-of-measure system, when present; else fall
back to unit_display as the coded unit; always attach unit_display as
the human-readable unit when present.  Present is read as non-blank
after stripping, matching the truthiness tests in the code. -/
def specUnitRule (ucum unitDisplay : Option String) :
    Option String × Option String × Option String :=
  let dispUnit : Option String :=
    match unitDisplay with
    | some w => if pyStrip w = "" then none else some (pyStrip w)
    | none => none
  let codedUnit : Option String :=
    match ucum with
    | some u => if pyStrip u = "" then dispUnit else some (pyStrip u)
    | none => dispUnit
  (codedUnit.map (fun _ => "http://unitsofmeasure.org"), codedUnit, dispUnit)

/-! ### Concrete sample data for the witnesses and counterexamples -/

/-- Sample configuration used by the concrete witnesses. -/
def cfgSample : Config :=
  { subject := some "Patient/pat-1", performer := none }

/-- Configuration with the sentinel performer. -/
def cfgUnknown : Config :=
  { subject := some "Patient/pat-1", performer := some "unknown" }

/-- Configuration with a direct performer reference. -/
def cfgRef : Config :=
  { subject := some "Patient/pat-1", performer := some "Practitioner/prac-9" }

/-- Row with a non-empty low bound that fails numeric parse and no high
bound. -/
def c1Row : Row :=
  { code := "2345-7", sys := "http://loinc.org"
    text_description := some "Glucose", value := none
    units := none, ucum := none
    lowRefRange := some "abc", highRefRange := none
    rrDisplay := none, dateobserved := none }

/-- Row with the raw value 15.2, which exceeds 9. -/
def c2RowBig : Row :=
  { code := "6690-2", sys := "http://loinc.org"
    text_description := some "WBC", value := some "15.2"
    units := none, ucum := none
    lowRefRange := none, highRefRange := none
    rrDisplay := none, dateobserved := none }

/-- Row with the raw value 7.5, which is at most 9. -/
def c2RowSmall : Row :=
  { code := "2345-7", sys := "http://loinc.org"
    text_description := some "Glucose", value := some "7.5"
    units := none, ucum := none
    lowRefRange := none, highRefRange := none
    rrDisplay := none, dateobserved := none }

/-- Row whose raw value is S surrounded by whitespace. -/
def c3Row : Row :=
  { code := "18864-9", sys := "http://loinc.org"
    text_description := some "Ampicillin", value := some " S "
    units := none, ucum := none
    lowRefRange := none, highRefRange := none
    rrDisplay := none, dateobserved := none }

/-- Row whose raw value is non-numeric free text. -/
def c3RowText : Row :=
  { code := "18864-9", sys := "http://loinc.org"
    text_description := some "Ampicillin", value := some "Not detected"
    units := none, ucum := none
    lowRefRange := none, highRefRange := none
    rrDisplay := none, dateobserved := none }

/-- An ordinary fully populated row. -/
def rowPlain : Row :=
  { code := "2345-7", sys := "http://loinc.org"
    text_description := some "Glucose", value := some "7.5"
    units := some "mg/dL", ucum := some "mg/dL"
    lowRefRange := some "3.9", highRefRange := some "5.5"
    rrDisplay := some "3.9-5.5", dateobserved := some "03/15/2024" }

/-- Row with a valid MM/DD/YYYY date. -/
def c6RowGood : Row :=
  { code := "2345-7", sys := "http://loinc.org"
    text_description := some "Glucose", value := some "7.5"
    units := none, ucum := none
    lowRefRange := none, highRefRange := none
    rrDisplay := none, dateobserved := some "03/15/2024" }

/-- Row with an invalid date string. -/
def c6RowBad : Row :=
  { code := "2345-7", sys := "http://loinc.org"
    text_description := some "Glucose", value := some "7.5"
    units := none, ucum := none
    lowRefRange := none, highRefRange := none
    rrDisplay := none, dateobserved := some "13/40/2024" }

/-- Row with an invalid observed date, surviving the narrative loop. -/
def c9Row : Row :=
  { code := "2345-7", sys := "http://loinc.org"
    text_description := some "Glucose", value := some "7.5"
    units := some "mg/dL", ucum := none
    lowRefRange := none, highRefRange := none
    rrDisplay := none, dateobserved := some "13/40/2024" }

/-- A row context whose three lookups all return a display. -/
def rcOk1 : RowCtx :=
  { row := rowPlain
    lookupF := Except.ok (some "Glucose SerPl")
    lookupB := Except.ok (some "Glucose SerPl")
    lookupN := Except.ok (some "Glucose SerPl")
    oidF := "uuid-f1", oidB := "uuid-b1" }

/-- A second row context whose lookups return a display. -/
def rcOk2 : RowCtx :=
  { row := c3Row
    lookupF := Except.ok (some "Ampicillin Islt")
    lookupB := Except.ok (some "Ampicillin Islt")
    lookupN := Except.ok (some "Ampicillin Islt")
    oidF := "uuid-f2", oidB := "uuid-b2" }

/-- A row context whose three lookups all raise. -/
def rcBad : RowCtx :=
  { row := rowPlain
    lookupF := Except.error "boom"
    lookupB := Except.error "boom"
    lookupN := Except.error "boom"
    oidF := "uuid-f3", oidB := "uuid-b3" }

/-! ### Helper lemmas -/

theorem buildObservation_id (cfg : Config) (idx : Nat) (r : Row)
    (disp : Option String) (oid : String) :
    (buildObservation cfg idx r disp oid).1.id = oid := rfl

theorem buildObservation_performer (cfg : Config) (idx : Nat) (r : Row)
    (disp : Option String) (oid : String) :
    (buildObservation cfg idx r disp oid).1.performer = mkPerformer cfg.performer := rfl

theorem buildObservation_effective (cfg : Config) (idx : Nat) (r : Row)
    (disp : Option String) (oid : String) :
    (buildObservation cfg idx r disp oid).1.effectiveDateTime
      = (mkEffective idx r.dateobserved).1 := rfl

theorem buildObservation_value (cfg : Config) (idx : Nat) (r : Row)
    (disp : Option String) (oid : String) :
    (buildObservation cfg idx r disp oid).1.value
      = (mkObsValue idx r.value (ucumCode r) (unitsStr r)).1 := rfl

theorem buildObservation_refRange (cfg : Config) (idx : Nat) (r : Row)
    (disp : Option String) (oid : String) :
    (buildObservation cfg idx r disp oid).1.referenceRange
      = (mkRefRange idx r.lowRefRange r.highRefRange r.rrDisplay
          (ucumCode r) (unitsStr r)).1 := rfl

theorem buildObservation_logs (cfg : Config) (idx : Nat) (r : Row)
    (disp : Option String) (oid : String) :
    (buildObservation cfg idx r disp oid).2
      = (mkEffective idx r.dateobserved).2
        ++ (mkObsValue idx r.value (ucumCode r) (unitsStr r)).2
        ++ (mkRefRange idx r.lowRefRange r.highRefRange r.rrDisplay
             (ucumCode r) (unitsStr r)).2 := rfl

/-- The Boolean comparison the code performs agrees with the strict
order on the denoted rational value. -/
theorem DecNum.gtNine_eq_toRat (a : DecNum) :
    a.gtNine = decide (9 < a.toRat) := by
  rw [DecNum.gtNine, DecNum.toRat]
  split
  · rw [decide_eq_decide]
    constructor
    · intro h; exact_mod_cast h
    · intro h; exact_mod_cast h
  · rw [decide_eq_decide, lt_div_iff₀ (by positivity)]
    constructor
    · intro h; exact_mod_cast h
    · intro h; exact_mod_cast h

/-- parsePyFloat never succeeds on the empty string. -/
theorem parsePyFloat_empty : parsePyFloat "" = none := by decide

/-- parseMMDDYYYY never succeeds on the empty string. -/
theorem parseMMDDYYYY_empty : parseMMDDYYYY "" = none := by decide

/-! ### C1 -/

/-- C1 is false on the code: with LowRefRange the non-empty unparsable
string abc and HighRefRange absent, no bound parses as numeric, yet the
produced record carries a referenceRange field (the code attaches it
whenever a bound cell is non-empty, before attempting the parse). -/
theorem c1_counterexample :
    (buildObservation cfgSample 0 c1Row (some "Glucose") "obs-c1").1.referenceRange.isSome = true
    ∧ ¬ ∃ s, (c1Row.lowRefRange = some s ∨ c1Row.highRefRange = some s)
        ∧ (parsePyFloat s).isSome = true := by
  refine ⟨by decide, ?_⟩
  rintro ⟨s, hs | hs, hp⟩
  · have h1 : s = "abc" := by
      have := hs
      simp only [c1Row] at this
      exact (Option.some.injEq _ _ ▸ this).symm
    rw [h1] at hp
    exact absurd hp (by decide)
  · simp only [c1Row] at hs
    exact Option.noConfusion hs

/-- C1 (amended): a record has a referenceRange field if and only if at
least one of LowRefRange/HighRefRange is a present, non-empty cell; a
non-empty bound that fails numeric parse still causes the field to be
present (with that bound omitted inside it). -/
theorem c1_refrange_iff_nonempty_bound (cfg : Config) (idx : Nat) (r : Row)
    (disp : Option String) (oid : String) :
    (buildObservation cfg idx r disp oid).1.referenceRange.isSome
      = (present r.lowRefRange || present r.highRefRange) := by
  rw [buildObservation_refRange]
  cases hc : present r.lowRefRange || present r.highRefRange <;>
    simp [mkRefRange, hc]

/-! ### C2 -/

/-- C2: when the raw value parses as a number, the stored
valueQuantity.value is the parsed value kept exactly if it is at most 9,
and the integer round (half to even) of it if it exceeds 9. -/
theorem c2_value_rounding (cfg : Config) (idx : Nat) (r : Row)
    (disp : Option String) (oid : String) (raw : String) (q : DecNum)
    (hv : r.value = some raw) (hq : parsePyFloat raw = some q) :
    obsQuantityValue (buildObservation cfg idx r disp oid).1
      = some (if 9 < q.toRat then JsonNum.jint q.pyRound else JsonNum.jfloat q) := by
  by_cases hraw : raw = ""
  · rw [hraw] at hq
    rw [parsePyFloat_empty] at hq
    exact Option.noConfusion hq
  · rw [obsQuantityValue, buildObservation_value, hv]
    simp only [mkObsValue, if_neg hraw, hq]
    rw [DecNum.gtNine_eq_toRat]
    by_cases h9 : 9 < q.toRat
    · simp [h9]
    · simp [h9]

/-- Witness for C2: 15.2 is stored as the integer 15; 7.5 is stored as
the float 7.5 unchanged. -/
theorem c2_value_rounding_witness :
    obsQuantityValue (buildObservation cfgSample 0 c2RowBig (some "WBC") "obs-c2a").1
      = some (JsonNum.jint 15)
    ∧ obsQuantityValue (buildObservation cfgSample 0 c2RowSmall (some "Glucose") "obs-c2b").1
      = some (JsonNum.jfloat { num := 75, exp := -1 }) := by
  constructor
  · have h := c2_value_rounding cfgSample 0 c2RowBig (some "WBC") "obs-c2a"
      "15.2" { num := 152, exp := -1 } rfl (by decide)
    rw [h, if_pos (by norm_num [DecNum.toRat])]
    decide
  · have h := c2_value_rounding cfgSample 0 c2RowSmall (some "Glucose") "obs-c2b"
      "7.5" { num := 75, exp := -1 } rfl (by decide)
    rw [h, if_neg (by norm_num [DecNum.toRat])]

/-! ### C3 -/

/-- C3: when the raw value fails numeric parse, a stripped value equal
to S, I or R (case-sensitive) becomes the fixed interpretation coding
with the matching display, and any other non-empty stripped value
becomes a valueString. -/
theorem c3_sir_coding (cfg : Config) (idx : Nat) (r : Row)
    (disp : Option String) (oid : String) (raw : String)
    (hv : r.value = some raw) (hne : raw ≠ "") (hq : parsePyFloat raw = none) :
    (pyStrip raw = "S" →
      (buildObservation cfg idx r disp oid).1.value
        = some (ObsValue.codeable interpretationSystem "S" "Susceptible"))
    ∧ (pyStrip raw = "I" →
      (buildObservation cfg idx r disp oid).1.value
        = some (ObsValue.codeable interpretationSystem "I" "Intermediate"))
    ∧ (pyStrip raw = "R" →
      (buildObservation cfg idx r disp oid).1.value
        = some (ObsValue.codeable interpretationSystem "R" "Resistant"))
    ∧ (pyStrip raw ≠ "S" → pyStrip raw ≠ "I" → pyStrip raw ≠ "R" → pyStrip raw ≠ "" →
      (buildObservation cfg idx r disp oid).1.value
        = some (ObsValue.str (pyStrip raw))) := by
  refine ⟨?_, ?_, ?_, ?_⟩
  · intro h
    rw [buildObservation_value, hv]
    simp [mkObsValue, hne, hq, h]
  · intro h
    rw [buildObservation_value, hv]
    simp [mkObsValue, hne, hq, h]
  · intro h
    rw [buildObservation_value, hv]
    simp [mkObsValue, hne, hq, h]
  · intro h1 h2 h3 h4
    rw [buildObservation_value, hv]
    simp [mkObsValue, hne, hq, h1, h2, h3, h4]

/-- Witness for C3: a row with value S (after stripping) gets the
Susceptible coding; a row with other free text gets a valueString. -/
theorem c3_sir_coding_witness :
    (buildObservation cfgSample 0 c3Row (some "Ampicillin") "obs-c3").1.value
      = some (ObsValue.codeable interpretationSystem "S" "Susceptible")
    ∧ (buildObservation cfgSample 0 c3RowText (some "Ampicillin") "obs-c3t").1.value
      = some (ObsValue.str "Not detected") := by
  constructor
  · exact (c3_sir_coding cfgSample 0 c3Row (some "Ampicillin") "obs-c3"
      " S " rfl (by decide) (by decide)).1 (by decide)
  · have h := (c3_sir_coding cfgSample 0 c3RowText (some "Ampicillin") "obs-c3t"
      "Not detected" rfl (by decide) (by decide)).2.2.2
      (by decide) (by decide) (by decide) (by decide)
    rw [h]
    decide

/-! ### C4 -/

/-- The bundle-entry list is the filterMap of the enumerated rows:
every surviving row yields its entry, at its position. -/
theorem bundlePassAux_entries_eq (cfg : Config) (rows : List RowCtx) (n : Nat) :
    (bundlePassAux cfg n rows).1
      = (List.enumFrom n rows).filterMap (fun p =>
          match p.2.lookupB with
          | Except.ok d =>
            some { fullUrl := "urn:uuid:" ++ p.2.oidB
                   resource := (buildObservation cfg p.1 p.2.row d p.2.oidB).1 }
          | Except.error _ => none) := by
  induction rows generalizing n with
  | nil => rfl
  | cons rc rest ih =>
    cases h : rc.lookupB with
    | error e => simp [bundlePassAux, h, List.enumFrom, ih]
    | ok d => simp [bundlePassAux, h, List.enumFrom, ih]

/-- The number of bundle entries equals the number of rows whose bundle
lookup returned normally. -/
theorem bundlePassAux_length (cfg : Config) (rows : List RowCtx) (n : Nat) :
    (bundlePassAux cfg n rows).1.length
      = rows.countP (fun rc => exOk rc.lookupB) := by
  induction rows generalizing n with
  | nil => rfl
  | cons rc rest ih =>
    cases h : rc.lookupB with
    | error e => simp [bundlePassAux, h, List.countP_cons, exOk, ih]
    | ok d => simp [bundlePassAux, h, List.countP_cons, exOk, ih]

/-- C4: the bundle entries are exactly one per row whose bundle-pass
lookup did not raise, in input row order (the filterMap of the
enumerated row list); their count is the count of surviving rows; and
every entry fullUrl is urn:uuid: followed by the id of the record it
embeds. -/
theorem c4_bundle_entries (cfg : Config) (rows : List RowCtx) :
    ((bundlePass cfg rows).1
      = (rows.enum).filterMap (fun p =>
          match p.2.lookupB with
          | Except.ok d =>
            some { fullUrl := "urn:uuid:" ++ p.2.oidB
                   resource := (buildObservation cfg p.1 p.2.row d p.2.oidB).1 }
          | Except.error _ => none))
    ∧ (bundlePass cfg rows).1.length = rows.countP (fun rc => exOk rc.lookupB)
    ∧ ((bundlePass cfg rows).1.all fun e =>
        e.fullUrl == "urn:uuid:" ++ e.resource.id) := by
  refine ⟨bundlePassAux_entries_eq cfg rows 0, bundlePassAux_length cfg rows 0, ?_⟩
  rw [bundlePass]
  generalize 0 = n
  induction rows generalizing n with
  | nil => rfl
  | cons rc rest ih =>
    cases h : rc.lookupB with
    | error e => simpa [bundlePassAux, h] using ih (n + 1)
    | ok d =>
      simp only [bundlePassAux, h, List.all_cons, Bool.and_eq_true]
      exact ⟨by simp [buildObservation_id], ih (n + 1)⟩

/-! ### C5 -/

/-- Splitting the bundle loop across a concatenation: entries,
references and logs all concatenate, with the index shifted by the
length of the prefix. -/
theorem bundlePassAux_append (cfg : Config) (xs ys : List RowCtx) (n : Nat) :
    (bundlePassAux cfg n (xs ++ ys)).1
      = (bundlePassAux cfg n xs).1 ++ (bundlePassAux cfg (n + xs.length) ys).1
    ∧ (bundlePassAux cfg n (xs ++ ys)).2.2
      = (bundlePassAux cfg n xs).2.2 ++ (bundlePassAux cfg (n + xs.length) ys).2.2 := by
  induction xs generalizing n with
  | nil => simp [bundlePassAux]
  | cons x xt ih =>
    have harith : n + 1 + xt.length = n + (xt.length + 1) := by omega
    cases h : x.lookupB with
    | error e =>
      refine ⟨?_, ?_⟩
      · simpa [bundlePassAux, h, harith] using (ih (n + 1)).1
      · simpa [bundlePassAux, h, harith] using (ih (n + 1)).2
    | ok d =>
      refine ⟨?_, ?_⟩
      · simpa [bundlePassAux, h, harith] using (ih (n + 1)).1
      · simpa [bundlePassAux, h, harith] using (ih (n + 1)).2

/-- Splitting the per-file loop across a concatenation. -/
theorem filePassAux_append (cfg : Config) (xs ys : List RowCtx) (n : Nat) :
    (filePassAux cfg n (xs ++ ys)).1
      = (filePassAux cfg n xs).1 ++ (filePassAux cfg (n + xs.length) ys).1
    ∧ (filePassAux cfg n (xs ++ ys)).2
      = (filePassAux cfg n xs).2 ++ (filePassAux cfg (n + xs.length) ys).2 := by
  induction xs generalizing n with
  | nil => simp [filePassAux]
  | cons x xt ih =>
    have harith : n + 1 + xt.length = n + (xt.length + 1) := by omega
    cases h : x.lookupF with
    | error e =>
      refine ⟨?_, ?_⟩
      · simpa [filePassAux, h, harith] using (ih (n + 1)).1
      · simpa [filePassAux, h, harith] using (ih (n + 1)).2
    | ok d =>
      refine ⟨?_, ?_⟩
      · simpa [filePassAux, h, harith] using (ih (n + 1)).1
      · simpa [filePassAux, h, harith] using (ih (n + 1)).2

/-- C5: in both row loops, a row whose lookup raises is skipped alone --
the surviving output is the concatenation of what the rows before and
after it produce -- and an error naming its row index is logged. -/
theorem c5_row_isolation (cfg : Config) (pre post : List RowCtx) (bad : RowCtx)
    (n : Nat) (e : String) :
    (bad.lookupB = Except.error e →
      (bundlePassAux cfg n (pre ++ bad :: post)).1
        = (bundlePassAux cfg n pre).1 ++ (bundlePassAux cfg (n + pre.length + 1) post).1
      ∧ LogMsg.errorRowBundle (n + pre.length) e
          ∈ (bundlePassAux cfg n (pre ++ bad :: post)).2.2)
    ∧ (bad.lookupF = Except.error e →
      (filePassAux cfg n (pre ++ bad :: post)).1
        = (filePassAux cfg n pre).1 ++ (filePassAux cfg (n + pre.length + 1) post).1
      ∧ LogMsg.errorRow (n + pre.length) e
          ∈ (filePassAux cfg n (pre ++ bad :: post)).2) := by
  constructor
  · intro hb
    have hsplit := bundlePassAux_append cfg pre (bad :: post) n
    refine ⟨?_, ?_⟩
    · rw [hsplit.1]
      simp [bundlePassAux, hb, Nat.add_assoc]
    · rw [hsplit.2]
      simp [bundlePassAux, hb]
  · intro hf
    have hsplit := filePassAux_append cfg pre (bad :: post) n
    refine ⟨?_, ?_⟩
    · rw [hsplit.1]
      simp [filePassAux, hf, Nat.add_assoc]
    · rw [hsplit.2]
      simp [filePassAux, hf]

/-- Witness for C5: with a failing middle row, the bundle loop yields
the entries of the first and third rows only, and logs the failure under
row index 1. -/
theorem c5_row_isolation_witness :
    ((bundlePassAux cfgSample 0 ([rcOk1] ++ rcBad :: [rcOk2])).1
      = (bundlePassAux cfgSample 0 [rcOk1]).1
        ++ (bundlePassAux cfgSample (0 + [rcOk1].length + 1) [rcOk2]).1
    ∧ LogMsg.errorRowBundle (0 + [rcOk1].length) "boom"
        ∈ (bundlePassAux cfgSample 0 ([rcOk1] ++ rcBad :: [rcOk2])).2.2) :=
  (c5_row_isolation cfgSample [rcOk1] [rcOk2] rcBad 0 "boom").1 rfl

/-! ### C6 -/

/-- C6: a present dateobserved that parses strictly as MM/DD/YYYY is
stored as the ISO date; a non-empty one that does not parse yields no
effectiveDateTime, logs a warning carrying the row index and the raw
string, and leaves every other field of the record exactly as it would
be with no date at all. -/
theorem c6_effective_date (cfg : Config) (idx : Nat) (r : Row)
    (disp : Option String) (oid : String) :
    (∀ raw m d y, r.dateobserved = some raw → parseMMDDYYYY raw = some (m, d, y) →
      (buildObservation cfg idx r disp oid).1.effectiveDateTime = some (isoDate y m d))
    ∧ (∀ raw, r.dateobserved = some raw → raw ≠ "" → parseMMDDYYYY raw = none →
      (buildObservation cfg idx r disp oid).1.effectiveDateTime = none
      ∧ LogMsg.warnInvalidDate idx raw ∈ (buildObservation cfg idx r disp oid).2
      ∧ (buildObservation cfg idx r disp oid).1
          = (buildObservation cfg idx { r with dateobserved := none } disp oid).1) := by
  constructor
  · intro raw m d y hdate hp
    by_cases hne : raw = ""
    · rw [hne] at hp
      rw [parseMMDDYYYY_empty] at hp
      exact Option.noConfusion hp
    · rw [buildObservation_effective, hdate]
      simp [mkEffective, hne, hp]
  · intro raw hdate hne hp
    refine ⟨?_, ?_, ?_⟩
    · rw [buildObservation_effective, hdate]
      simp [mkEffective, hne, hp]
    · rw [buildObservation_logs, hdate]
      simp [mkEffective, hne, hp]
    · simp only [buildObservation, ObservationRecord.mk.injEq, hdate, mkEffective,
        if_neg hne, hp, true_and, and_true]
      and_intros <;> rfl

/-- Witness for C6: 03/15/2024 is stored as 2024-03-15; 13/40/2024
yields no effectiveDateTime and a logged warning for row 0. -/
theorem c6_effective_date_witness :
    (buildObservation cfgSample 0 c6RowGood (some "Glucose SerPl") "obs-c6g").1.effectiveDateTime
      = some "2024-03-15"
    ∧ (buildObservation cfgSample 0 c6RowBad (some "Glucose SerPl") "obs-c6b").1.effectiveDateTime
      = none
    ∧ LogMsg.warnInvalidDate 0 "13/40/2024"
        ∈ (buildObservation cfgSample 0 c6RowBad (some "Glucose SerPl") "obs-c6b").2 := by
  have hg := (c6_effective_date cfgSample 0 c6RowGood (some "Glucose SerPl") "obs-c6g").1
    "03/15/2024" 3 15 2024 rfl (by decide)
  have hb := (c6_effective_date cfgSample 0 c6RowBad (some "Glucose SerPl") "obs-c6b").2
    "13/40/2024" rfl (by decide) (by decide)
  exact ⟨by rw [hg]; decide, hb.1, hb.2.1⟩

/-! ### C7 -/

/-- C7: an absent performer configuration yields no performer field; the
exact sentinel unknown yields one performer entry holding the
data-absent-reason extension with valueCode unknown and no reference;
any other non-empty string yields one entry holding it as a direct
reference. -/
theorem c7_performer_rule (cfg : Config) (idx : Nat) (r : Row)
    (disp : Option String) (oid : String) :
    (cfg.performer = none →
      (buildObservation cfg idx r disp oid).1.performer = none)
    ∧ (cfg.performer = some "unknown" →
      (buildObservation cfg idx r disp oid).1.performer
        = some [{ reference := none
                  darExtension :=
                    [("http://hl7.org/fhir/StructureDefinition/data-absent-reason",
                      "unknown")] }])
    ∧ (∀ s, cfg.performer = some s → s ≠ "unknown" → s ≠ "" →
      (buildObservation cfg idx r disp oid).1.performer
        = some [{ reference := some s, darExtension := [] }]) := by
  refine ⟨?_, ?_, ?_⟩
  · intro h
    rw [buildObservation_performer, h]
    simp [mkPerformer]
  · intro h
    rw [buildObservation_performer, h]
    simp [mkPerformer]
  · intro s h hs hne
    rw [buildObservation_performer, h]
    simp [mkPerformer, hs, hne]

/-- Witness for C7: the three performer configurations at a concrete
row. -/
theorem c7_performer_rule_witness :
    (buildObservation cfgUnknown 0 rowPlain (some "Glucose SerPl") "obs-c7u").1.performer
      = some [{ reference := none
                darExtension :=
                  [("http://hl7.org/fhir/StructureDefinition/data-absent-reason",
                    "unknown")] }]
    ∧ (buildObservation cfgRef 0 rowPlain (some "Glucose SerPl") "obs-c7r").1.performer
      = some [{ reference := some "Practitioner/prac-9", darExtension := [] }]
    ∧ (buildObservation cfgSample 0 rowPlain (some "Glucose SerPl") "obs-c7n").1.performer
      = none :=
  ⟨(c7_performer_rule cfgUnknown 0 rowPlain (some "Glucose SerPl") "obs-c7u").2.1 rfl,
   (c7_performer_rule cfgRef 0 rowPlain (some "Glucose SerPl") "obs-c7r").2.2
     "Practitioner/prac-9" rfl (by decide) (by decide),
   (c7_performer_rule cfgSample 0 rowPlain (some "Glucose SerPl") "obs-c7n").1 rfl⟩

/-! ### C8 -/

/-- A valueQuantity carries exactly the shared unit metadata. -/
theorem mkObsValue_quantity_meta (idx : Nat) (vopt : Option String) (uc us : String)
    (qt : Quantity)
    (h : (mkObsValue idx vopt uc us).1 = some (ObsValue.quantity qt)) :
    (qt.qsystem, qt.qcode, qt.qunit) = unitMeta uc us := by
  cases vopt with
  | none => exact Option.noConfusion h
  | some raw =>
    by_cases hraw : raw = ""
    · simp [mkObsValue, hraw] at h
    · cases hpf : parsePyFloat raw with
      | some q =>
        simp only [mkObsValue, if_neg hraw, hpf, Option.some.injEq,
          ObsValue.quantity.injEq] at h
        subst h
        rfl
      | none =>
        simp only [mkObsValue, if_neg hraw, hpf] at h
        split_ifs at h <;> simp_all

/-- A low reference-range bound carries exactly the shared unit
metadata. -/
theorem mkRefRange_low_meta (idx : Nat) (lo hi rr : Option String) (uc us : String)
    (rrng : RefRange) (lq : Quantity)
    (h : (mkRefRange idx lo hi rr uc us).1 = some rrng) (hl : rrng.low = some lq) :
    (lq.qsystem, lq.qcode, lq.qunit) = unitMeta uc us := by
  by_cases hc : (present lo || present hi) = true
  · simp only [mkRefRange, hc, if_true, Option.some.injEq] at h
    subst h
    simp only at hl
    cases lo with
    | none => exact Option.noConfusion hl
    | some lraw =>
      by_cases hlr : lraw = ""
      · simp [hlr] at hl
      · cases hpf : parsePyFloat lraw with
        | some v =>
          simp only [if_neg hlr, hpf, Option.some.injEq] at hl
          subst hl
          rfl
        | none => simp [if_neg hlr, hpf] at hl
  · simp only [mkRefRange, hc, if_false] at h
    rw [Bool.not_eq_true] at hc
    simp [hc] at h

/-- A high reference-range bound carries exactly the shared unit
metadata. -/
theorem mkRefRange_high_meta (idx : Nat) (lo hi rr : Option String) (uc us : String)
    (rrng : RefRange) (hq : Quantity)
    (h : (mkRefRange idx lo hi rr uc us).1 = some rrng) (hh : rrng.high = some hq) :
    (hq.qsystem, hq.qcode, hq.qunit) = unitMeta uc us := by
  by_cases hc : (present lo || present hi) = true
  · simp only [mkRefRange, hc, if_true, Option.some.injEq] at h
    subst h
    simp only at hh
    cases hi with
    | none => exact Option.noConfusion hh
    | some hraw =>
      by_cases hhr : hraw = ""
      · simp [hhr] at hh
      · cases hpf : parsePyFloat hraw with
        | some v =>
          simp only [if_neg hhr, hpf, Option.some.injEq] at hh
          subst hh
          rfl
        | none => simp [if_neg hhr, hpf] at hh
  · simp only [mkRefRange, hc, if_false] at h
    rw [Bool.not_eq_true] at hc
    simp [hc] at h

/-- The resolved pair fed to all three blocks agrees with the rule as
the spec words it. -/
theorem unitMeta_eq_specUnitRule (r : Row) :
    unitMeta (ucumCode r) (unitsStr r) = specUnitRule r.ucum r.units := by
  rw [unitMeta, specUnitRule.eq_def, ucumCode, unitsStr]
  cases hu : r.ucum with
  | none =>
    cases hw : r.units with
    | none => rfl
    | some w => by_cases hws : pyStrip w = "" <;> simp [hws]
  | some u =>
    by_cases hus : pyStrip u = ""
    · cases hw : r.units with
      | none => simp [hus, unitsStr]
      | some w =>
        by_cases hws : pyStrip w = "" <;> simp [hus, hws, unitsStr, hw]
    · cases hw : r.units with
      | none => simp [hus, unitsStr, hw]
      | some w =>
        by_cases hws : pyStrip w = "" <;> simp [hus, hws, unitsStr, hw]

/-- C8: the unit-resolution rule is one shared function: the metadata of
the valueQuantity and of both reference-range bounds all equal unitMeta
applied to the row's resolved (ucum_code, unit_str), and that function
agrees with the rule as the spec words it. -/
theorem c8_unit_rule_shared (cfg : Config) (idx : Nat) (r : Row)
    (disp : Option String) (oid : String) :
    (∀ qt, (buildObservation cfg idx r disp oid).1.value = some (ObsValue.quantity qt) →
      (qt.qsystem, qt.qcode, qt.qunit) = unitMeta (ucumCode r) (unitsStr r))
    ∧ (∀ rrng lq, (buildObservation cfg idx r disp oid).1.referenceRange = some rrng →
        rrng.low = some lq →
        (lq.qsystem, lq.qcode, lq.qunit) = unitMeta (ucumCode r) (unitsStr r))
    ∧ (∀ rrng hq, (buildObservation cfg idx r disp oid).1.referenceRange = some rrng →
        rrng.high = some hq →
        (hq.qsystem, hq.qcode, hq.qunit) = unitMeta (ucumCode r) (unitsStr r))
    ∧ unitMeta (ucumCode r) (unitsStr r) = specUnitRule r.ucum r.units := by
  refine ⟨?_, ?_, ?_, unitMeta_eq_specUnitRule r⟩
  · intro qt h
    rw [buildObservation_value] at h
    exact mkObsValue_quantity_meta idx r.value (ucumCode r) (unitsStr r) qt h
  · intro rrng lq h hl
    rw [buildObservation_refRange] at h
    exact mkRefRange_low_meta idx r.lowRefRange r.highRefRange r.rrDisplay
      (ucumCode r) (unitsStr r) rrng lq h hl
  · intro rrng hq h hh
    rw [buildObservation_refRange] at h
    exact mkRefRange_high_meta idx r.lowRefRange r.highRefRange r.rrDisplay
      (ucumCode r) (unitsStr r) rrng hq h hh

/-- Witness for C8: at a fully populated row, the value and both bounds
carry the same metadata triple. -/
theorem c8_unit_rule_shared_witness :
    ((some "http://unitsofmeasure.org", some "mg/dL", some "mg/dL")
        : Option String × Option String × Option String)
      = unitMeta (ucumCode rowPlain) (unitsStr rowPlain) := by
  have h := (c8_unit_rule_shared cfgSample 0 rowPlain (some "Glucose SerPl") "obs-c8").1
    { value := JsonNum.jfloat { num := 75, exp := -1 }
      qsystem := some "http://unitsofmeasure.org"
      qcode := some "mg/dL"
      qunit := some "mg/dL" }
    (by decide)
  exact h

/-! ### C9 -/

/-- C9 is false on the code at its date clause: for a row whose observed
date does not parse as MM/DD/YYYY, the narrative date cell holds the raw
string unchanged, so it is not the observed date reformatted to
DD/MM/YYYY (no such reformat exists, since the parse fails). -/
theorem c9_counterexample :
    (narrativeRow c9Row (some "Glucose SerPl")).dateCell = "13/40/2024"
    ∧ ¬ ∃ m d y, parseMMDDYYYY "13/40/2024" = some (m, d, y)
        ∧ (narrativeRow c9Row (some "Glucose SerPl")).dateCell = fmtDDMMYYYY d m y := by
  refine ⟨by decide, ?_⟩
  rintro ⟨m, d, y, hp, _⟩
  rw [show parseMMDDYYYY "13/40/2024" = none from by decide] at hp
  exact Option.noConfusion hp

/-- The narrative rows are the filterMap of the rows over surviving
lookups. -/
theorem narrativePassAux_rows_eq (rows : List RowCtx) (n : Nat) :
    (narrativePassAux n rows).1
      = rows.filterMap (fun rc =>
          match rc.lookupN with
          | Except.ok d => some (narrativeRow rc.row d)
          | Except.error _ => none) := by
  induction rows generalizing n with
  | nil => rfl
  | cons rc rest ih =>
    cases h : rc.lookupN with
    | error e => simp [narrativePassAux, h, ih]
    | ok d => simp [narrativePassAux, h, ih]

/-- C9 (amended): the narrative table holds one row per surviving source
row, in input order; its test-name cell is the resolved display when
truthy, else the raw text description; its result cell is the raw value
followed by the raw units (else ucum) cell when one is present, else the
raw value alone, and empty when the value is absent; its date cell is
the observed date reformatted to DD/MM/YYYY when it parses as
MM/DD/YYYY, else the raw observed string, and empty when absent. -/
theorem c9_narrative_rows (rows : List RowCtx) :
    ((narrativePass rows).1
      = rows.filterMap (fun rc =>
          match rc.lookupN with
          | Except.ok d => some (narrativeRow rc.row d)
          | Except.error _ => none))
    ∧ (∀ r d, (narrativeRow r d).testName
        = (match d with
           | some s => if s = "" then descCell r else s
           | none => descCell r))
    ∧ (∀ r d raw, r.value = some raw → raw ≠ "" →
        (narrativeRow r d).valueCell
          = (if present r.units then raw ++ " " ++ r.units.getD ""
             else if present r.ucum then raw ++ " " ++ r.ucum.getD ""
             else raw))
    ∧ (∀ r d, r.value = none → (narrativeRow r d).valueCell = "")
    ∧ (∀ r dd raw, r.dateobserved = some raw → raw ≠ "" →
        (narrativeRow r dd).dateCell
          = (match parseMMDDYYYY raw with
             | some (m, day, y) => fmtDDMMYYYY day m y
             | none => raw))
    ∧ (∀ r dd, r.dateobserved = none → (narrativeRow r dd).dateCell = "") := by
  refine ⟨narrativePassAux_rows_eq rows 0, ?_, ?_, ?_, ?_, ?_⟩
  · intro r d
    rfl
  · intro r d raw hv hne
    simp [narrativeRow, hv, hne]
  · intro r d hv
    simp [narrativeRow, hv]
  · intro r dd raw hd hne
    simp [narrativeRow, hd, hne]
  · intro r dd hd
    simp [narrativeRow, hd]

/-- Witness for the amended C9: a parsing date is reformatted from
MM/DD/YYYY to DD/MM/YYYY in the narrative cell. -/
theorem c9_narrative_rows_witness :
    (narrativeRow c6RowGood none).dateCell = "15/03/2024" := by
  have h := (c9_narrative_rows []).2.2.2.2.1 c6RowGood none "03/15/2024" rfl (by decide)
  rw [h]
  decide

/-! ### C10 -/

/-- The bundle loop appends an entry and a result-history reference
together: the two lists always have equal length. -/
theorem bundlePassAux_refs_length (cfg : Config) (rows : List RowCtx) (n : Nat) :
    (bundlePassAux cfg n rows).1.length = (bundlePassAux cfg n rows).2.1.length := by
  induction rows generalizing n with
  | nil => rfl
  | cons rc rest ih =>
    cases h : rc.lookupB with
    | error e => simpa [bundlePassAux, h] using ih (n + 1)
    | ok d => simpa [bundlePassAux, h] using ih (n + 1)

/-- When every bundle lookup raises, the loop produces no entries and no
references. -/
theorem bundlePassAux_all_error (cfg : Config) (rows : List RowCtx) (n : Nat) :
    rows.all (fun rc => !exOk rc.lookupB) = true →
    (bundlePassAux cfg n rows).1 = [] ∧ (bundlePassAux cfg n rows).2.1 = [] := by
  induction rows generalizing n with
  | nil => exact fun _ => ⟨rfl, rfl⟩
  | cons rc rest ih =>
    intro hall
    simp only [List.all_cons, Bool.and_eq_true] at hall
    cases h : rc.lookupB with
    | error e =>
      have htail := ih (n + 1) hall.2
      simp [bundlePassAux, h, htail.1, htail.2]
    | ok d =>
      rw [h] at hall
      simp [exOk] at hall

/-- C10: the assembled bundle has a result-history section exactly when
at least one row produced a bundle entry; when every row fails in the
bundle pass the bundle is still produced, with an empty entry list and
no section. -/
theorem c10_section_iff_entries (cfg : Config) (rows : List RowCtx) (bid : String) :
    ((assembleBundle cfg rows bid).sect.isSome = true
      ↔ (assembleBundle cfg rows bid).entries ≠ [])
    ∧ (rows.all (fun rc => !exOk rc.lookupB) = true →
        (assembleBundle cfg rows bid).entries = []
        ∧ (assembleBundle cfg rows bid).sect = none) := by
  have hlen := bundlePassAux_refs_length cfg rows 0
  constructor
  · simp only [assembleBundle, bundlePass]
    cases hl : (bundlePassAux cfg 0 rows).2.1 with
    | nil =>
      have hz : (bundlePassAux cfg 0 rows).1 = [] := by
        rw [hl] at hlen
        simpa using List.length_eq_zero.mp hlen
      simp [hl, hz]
    | cons a as =>
      have hnz : (bundlePassAux cfg 0 rows).1 ≠ [] := by
        intro hcontra
        rw [hcontra, hl] at hlen
        simp at hlen
      simp [hl, hnz]
  · intro hall
    have h := bundlePassAux_all_error cfg rows 0 hall
    simp only [assembleBundle, bundlePass]
    simp [h.1, h.2]

/-- Witness for C10: a single all-failing row set still yields a bundle,
with no entries and no section. -/
theorem c10_section_iff_entries_witness :
    (assembleBundle cfgSample [rcBad] "bundle-1").entries = []
    ∧ (assembleBundle cfgSample [rcBad] "bundle-1").sect = none :=
  (c10_section_iff_entries cfgSample [rcBad] "bundle-1").2 rfl
